import Mathlib

/-!
Verification development for the `gaode_commute` Home Assistant integration.

The integration (files `__init__.py`, `sensor.py`, `config_flow.py`, `const.py`)
is shallowly embedded below: JSON values decoded by Python's `json` module are an
inductive type (numbers as exact rationals), Python exceptions caught by the code
become explicit `Option`/fallback values, and the coordinator's mutable
`self.origin` / `self.destination` strings become explicit state threading.
-/

namespace GaodeCommute

/-- A JSON value as decoded by Python's `json` module.  Python numbers (`int` or
`float`) are modelled together as exact rationals; Python `True`/`False`/`None`
map to `bool`/`null`. -/
inductive JSON where
  | null
  | bool (b : Bool)
  | num (q : ℚ)
  | str (s : String)
  | arr (elems : List JSON)
  | obj (fields : List (String × JSON))

/-- Python `dict.get(key, default)` on a decoded JSON object: the first binding
for `key` wins (Python dicts have unique keys, so first = only). -/
def dictGet (fields : List (String × JSON)) (key : String) (dflt : JSON) : JSON :=
  match fields with
  | [] => dflt
  | (k, v) :: rest => if k = key then v else dictGet rest key dflt

/-- Value of a list of decimal digit characters. -/
def digitsVal (cs : List Char) : ℕ :=
  cs.foldl (fun a c => 10 * a + (c.toNat - 48)) 0

/-- Parse a nonempty all-digit character list, else `none`. -/
def digitsVal? (cs : List Char) : Option ℕ :=
  match cs with
  | [] => none
  | _ => if cs.all Char.isDigit then some (digitsVal cs) else none

/-- Python `int(s)` on a string: surrounding whitespace stripped, optional sign,
then decimal digits; anything else raises `ValueError` (`none` here).  (Python
additionally allows underscores between digits; not modelled.) -/
def parseIntStr? (s : String) : Option ℤ :=
  let cs := ((s.toList.dropWhile Char.isWhitespace).reverse.dropWhile
      Char.isWhitespace).reverse
  match cs with
  | '-' :: rest => (digitsVal? rest).map fun n => -(n : ℤ)
  | '+' :: rest => (digitsVal? rest).map fun n => (n : ℤ)
  | rest => (digitsVal? rest).map fun n => (n : ℤ)

/-- Truncation toward zero, the behaviour of Python `int(q)` on a number. -/
def ratTrunc (q : ℚ) : ℤ :=
  if q < 0 then -⌊-q⌋ else ⌊q⌋

/-- Python `int(x)` on a decoded JSON value: numbers truncate toward zero,
strings are parsed, `True`/`False` give `1`/`0` (`bool` is an `int` subclass);
`None`, lists and dicts raise `TypeError` (`none` here). -/
def pyInt : JSON → Option ℤ
  | .num q => some (ratTrunc q)
  | .str s => parseIntStr? s
  | .bool b => some (if b then 1 else 0)
  | _ => none

/-- The transit parser's guarded coercion
`int(v) if isinstance(v, (str, int, float)) else 0` with
`except (ValueError, TypeError): 0` around it: every failure yields `0`. -/
def pyIntLenient : JSON → ℤ
  | .num q => ratTrunc q
  | .str s => (parseIntStr? s).getD 0
  | .bool b => if b then 1 else 0
  | _ => 0

/-- One `{duration, distance}` record (seconds, meters) as produced by the
coordinator's fetch helpers. -/
structure RouteEstimate where
  duration : ℤ
  distance : ℤ
deriving DecidableEq

/-- The `{"duration": 0, "distance": 0}` fallback record. -/
def zeroEstimate : RouteEstimate := ⟨0, 0⟩

/-- Response handling of `GaodeDataUpdateCoordinator._fetch_driving_route`
(`__init__.py` lines 307-324) applied to an already-decoded JSON body.  Every
Python exception inside the handler (`AttributeError` from `.get` on a
non-dict, indexing errors on a non-list `paths`, `ValueError`/`TypeError` from
`int(...)`) is caught by the surrounding `except Exception` and yields
`{"duration": 0, "distance": 0}`; a falsy (empty) `paths` falls through to the
same return, so every non-happy branch below is `zeroEstimate`. -/
def parse_driving_response (data : JSON) : RouteEstimate :=
  match data with
  | .obj fields =>
    match dictGet fields "status" JSON.null with
    | .str s =>
      if s = "1" then
        match dictGet fields "route" (JSON.obj []) with
        | .obj routeFields =>
          match dictGet routeFields "paths" (JSON.arr []) with
          | .arr (path :: _) =>
            match path with
            | .obj pathFields =>
              match pyInt (dictGet pathFields "duration" (JSON.num 0)),
                  pyInt (dictGet pathFields "distance" (JSON.num 0)) with
              | some du, some di => ⟨du, di⟩
              | _, _ => zeroEstimate
            | _ => zeroEstimate
          | _ => zeroEstimate
        | _ => zeroEstimate
      else zeroEstimate
    | _ => zeroEstimate
  | _ => zeroEstimate

/-- Response handling of `GaodeDataUpdateCoordinator._fetch_transit_route`
(`__init__.py` lines 358-420) applied to an already-decoded JSON body.  The
code explicitly checks `isinstance` before indexing (response a dict, `route`
a dict, `transits` a list, first transit a dict) and returns the zero record on
mismatch; the `distance`/`duration` coercions are the lenient guarded ones.
With `transits` empty, control falls through to the final zero return even
though `distance` was already computed. -/
def parse_transit_response (data : JSON) : RouteEstimate :=
  match data with
  | .obj fields =>
    match dictGet fields "status" JSON.null with
    | .str s =>
      if s = "1" then
        match dictGet fields "route" (JSON.obj []) with
        | .obj routeFields =>
          match dictGet routeFields "transits" (JSON.arr []) with
          | .arr transits =>
            let distance := pyIntLenient (dictGet routeFields "distance" (JSON.num 0))
            match transits with
            | transit :: _ =>
              match transit with
              | .obj transitFields =>
                ⟨pyIntLenient (dictGet transitFields "duration" (JSON.num 0)), distance⟩
              | _ => zeroEstimate
            | [] => zeroEstimate
          | _ => zeroEstimate
        | _ => zeroEstimate
      else zeroEstimate
    | _ => zeroEstimate
  | _ => zeroEstimate

/-- Python `s.startswith(p)`, computed on the character lists. -/
def pyStartsWith (s p : String) : Bool :=
  p.toList.isPrefixOf s.toList

/-- Python `s[n:]` for a nonnegative `n`, computed on the character lists. -/
def pyDrop (s : String) (n : ℕ) : String :=
  String.mk (s.toList.drop n)

/-- Python `c in s` for a single character, computed on the character list. -/
def pyContains (s : String) (c : Char) : Bool :=
  s.toList.contains c

/-- The location-bearing attributes of one host entity, as consulted by the
integration: `attributes.get("longitude")` / `attributes.get("latitude")`
(formatted into the request string via an f-string, hence kept as strings;
an attribute that is absent or `None` is `none`). -/
structure EntityAttrs where
  longitude : Option String
  latitude : Option String

/-- The host's entity-state lookup `hass.states.get(entity_id)`: `none` when
the entity does not exist. -/
def HostState := String → Option EntityAttrs

/-- Look up an entity and build the `f"{longitude},{latitude}"` string; `none`
when the entity is missing or lacks either attribute.  This is the common core
of `_get_coordinates` (setup) and `_update_entity_locations` (per tick). -/
def resolveEntity (host : HostState) (entity_id : String) : Option String :=
  match host entity_id with
  | none => none
  | some attrs =>
    match attrs.longitude, attrs.latitude with
    | some lon, some lat => some (lon ++ "," ++ lat)
    | _, _ => none

/-- The helper `_get_coordinates` inside `async_setup_entry` (`__init__.py` lines 53-73):
a string containing a comma is passed through verbatim; otherwise the value is
treated as an entity id (an `"entity:"` prefix is stripped first, `value[7:]`)
and resolved against host state. -/
def get_coordinates (host : HostState) (value : String) : Option String :=
  if pyContains value ',' then some value
  else
    let entity_id := if pyStartsWith value "entity:" then pyDrop value 7 else value
    resolveEntity host entity_id

/-- The origin/destination resolution that `async_setup_entry` performs before
constructing the coordinator (`__init__.py` lines 75-78): both endpoints are
resolved with `_get_coordinates`; setup aborts (`none`) if either fails. -/
def setup_resolve (host : HostState) (origin destination : String) : Option (String × String) :=
  match get_coordinates host origin, get_coordinates host destination with
  | some o, some d => some (o, d)
  | _, _ => none

/-- The coordinator's mutable coordinate state: `self.origin` and
`self.destination`. -/
structure Coord where
  origin : String
  destination : String
deriving DecidableEq

/-- Method `GaodeDataUpdateCoordinator._update_entity_locations` (`__init__.py`
lines 241-275).  An endpoint still carrying an `"entity:"` prefix is re-resolved from
host state (`value.split(":", 1)[1]` = drop 7 given the prefix) and the result
*overwrites* `self.origin`/`self.destination`; a missing entity or missing
attributes returns `False` immediately (origin is checked first, so a failing
origin leaves the destination untouched). -/
def update_entity_locations (host : HostState) (c : Coord) : Coord × Bool :=
  let step1 : Coord × Bool :=
    if pyStartsWith c.origin "entity:" then
      match resolveEntity host (pyDrop c.origin 7) with
      | none => (c, false)
      | some coords => ({ c with origin := coords }, true)
    else (c, true)
  match step1 with
  | (c1, false) => (c1, false)
  | (c1, true) =>
    if pyStartsWith c1.destination "entity:" then
      match resolveEntity host (pyDrop c1.destination 7) with
      | none => (c1, false)
      | some coords => ({ c1 with destination := coords }, true)
    else (c1, true)

/-- Method `_fetch_driving_route` (`__init__.py` lines 277-327).  The HTTP layer is an
oracle: `resp = none` stands for any exception while issuing the request or
decoding its JSON (caught by the `except Exception` and turned into the zero
record); `some data` is the decoded body.  Empty origin/destination strings are
falsy and rejected up front; an endpoint still in `"entity:"` form triggers a
re-resolution whose boolean result the code ignores. -/
def fetch_driving_route (host : HostState) (c : Coord) (resp : Option JSON) :
    Coord × RouteEstimate :=
  if c.origin = "" || c.destination = "" then (c, zeroEstimate)
  else
    let c1 := if pyStartsWith c.origin "entity:" || pyStartsWith c.destination "entity:"
      then (update_entity_locations host c).1 else c
    match resp with
    | none => (c1, zeroEstimate)
    | some data => (c1, parse_driving_response data)

/-- Method `_fetch_transit_route` (`__init__.py` lines 329-423), same shape as
`fetch_driving_route` but with the transit response handling. -/
def fetch_transit_route (host : HostState) (c : Coord) (resp : Option JSON) :
    Coord × RouteEstimate :=
  if c.origin = "" || c.destination = "" then (c, zeroEstimate)
  else
    let c1 := if pyStartsWith c.origin "entity:" || pyStartsWith c.destination "entity:"
      then (update_entity_locations host c).1 else c
    match resp with
    | none => (c1, zeroEstimate)
    | some data => (c1, parse_transit_response data)

/-- The `{driving, transit}` record returned by one refresh. -/
structure Snapshot where
  driving : RouteEstimate
  transit : RouteEstimate
deriving DecidableEq

/-- The all-zero fallback Snapshot. -/
def zeroSnapshot : Snapshot := ⟨zeroEstimate, zeroEstimate⟩

/-- The environment of one scheduled refresh: whether the 10-second
`async_timeout` budget elapses, and the outcome of each HTTP request
(`none` = request/JSON-decoding exception). -/
structure TickEnv where
  timeout : Bool
  drivingResp : Option JSON
  transitResp : Option JSON

/-- Method `GaodeDataUpdateCoordinator._async_update_data` (`__init__.py`
lines 196-239): on timeout the `asyncio.TimeoutError` handler returns the zero
Snapshot; a failed `_update_entity_locations` returns the zero Snapshot; else
the two fetches run in order, threading the (possibly mutated) coordinate
state, and their results are paired.  The function is total: every exception
the Python code can see is caught and mapped to a zero value, which is the
"never propagates" half of the error policy. -/
def async_update_data (host : HostState) (env : TickEnv) (c : Coord) : Coord × Snapshot :=
  if env.timeout then (c, zeroSnapshot)
  else
    match update_entity_locations host c with
    | (c1, false) => (c1, zeroSnapshot)
    | (c1, true) =>
      let dr := fetch_driving_route host c1 env.drivingResp
      let tr := fetch_transit_route host dr.1 env.transitResp
      (tr.1, ⟨dr.2, tr.2⟩)

/-- Python `round(q)` (used on `driving_duration_seconds / 60`): round half to
even.  The Python expression divides in binary floating point; the division is
modelled exactly on rationals, which agrees wherever the float quotient is
exact at the half (all integer-second durations of realistic size). -/
def pyRound (q : ℚ) : ℤ :=
  if q - ⌊q⌋ < 1 / 2 then ⌊q⌋
  else if 1 / 2 < q - ⌊q⌋ then ⌊q⌋ + 1
  else if ⌊q⌋ % 2 = 0 then ⌊q⌋ else ⌊q⌋ + 1

/-- The two icons `GaodeCommuteSensor.icon` can report. -/
inductive Icon where
  | carOff
  | carClock
deriving DecidableEq

/-- Property `GaodeCommuteSensor.native_value` (`sensor.py` lines 65-82) together with
the `_attr_available` flag it assigns: `(state, available)`.  `none` input is
falsy coordinator data; a non-positive driving duration marks the sensor
unavailable with an undefined state, otherwise the state is the rounded
driving minutes. -/
def native_value (data : Option Snapshot) : Option ℤ × Bool :=
  match data with
  | none => (none, false)
  | some s =>
    if s.driving.duration ≤ 0 then (none, false)
    else (some (pyRound ((s.driving.duration : ℚ) / 60)), true)

/-- Property `GaodeCommuteSensor.icon` (`sensor.py` lines 135-140), a function of the
`_attr_available` flag last written by `native_value`. -/
def sensor_icon (available : Bool) : Icon :=
  if available then Icon.carClock else Icon.carOff

/-- Print `n / 10 ^ prec` in fixed-point notation, `n` being the already
rounded scaled value: sign, integer part, then the `prec`-digit zero-padded
fractional part. -/
def fmtScaled (n : ℤ) (prec : ℕ) : String :=
  (if n < 0 then "-" else "") ++
    (if prec = 0 then toString (n.natAbs / 10 ^ prec)
     else toString (n.natAbs / 10 ^ prec) ++ "." ++
       (String.mk (List.replicate (prec - (toString (n.natAbs % 10 ^ prec)).length) '0') ++
         toString (n.natAbs % 10 ^ prec)))

/-- Python fixed-point formatting to `prec` decimals: round half to even at
`prec` decimals, then print with the fractional part zero-padded.  As with
`pyRound`, the binary-float value is modelled by the exact rational. -/
def formatFixed (q : ℚ) (prec : ℕ) : String :=
  fmtScaled (pyRound (q * ((10 ^ prec : ℕ) : ℚ))) prec

/-- The duration-formatting block of `GaodeCommuteSensor.extra_state_attributes`
(`sensor.py` lines 110-122): `"未知"` for non-positive seconds; minutes over
120 (strictly) render as hours to two decimals with suffix `小时`; otherwise
`int(minutes)` (truncation) with suffix `分钟`. -/
def format_duration (seconds : ℤ) : String :=
  if seconds ≤ 0 then "未知"
  else if 120 < (seconds : ℚ) / 60 then formatFixed ((seconds : ℚ) / 60 / 60) 2 ++ "小时"
  else toString (ratTrunc ((seconds : ℚ) / 60)) ++ "分钟"

/-- The distance-formatting block of `extra_state_attributes` (`sensor.py`
lines 125-126): `"未知"` for non-positive meters, otherwise kilometers to one
decimal with suffix `公里`. -/
def format_distance (meters : ℤ) : String :=
  if meters ≤ 0 then "未知"
  else formatFixed ((meters : ℚ) / 1000) 1 ++ "公里"

/-- Property `GaodeCommuteSensor.extra_state_attributes` (`sensor.py` lines 84-133):
the four formatted attribute strings in the order the code builds its dict
(keys from `const.py`). -/
def extra_state_attributes (data : Option Snapshot) : List (String × String) :=
  match data with
  | none => []
  | some s =>
    [("驾车通勤时间", format_duration s.driving.duration),
     ("驾车通勤距离", format_distance s.driving.distance),
     ("公交通勤时间", format_duration s.transit.duration),
     ("公交通勤距离", format_distance s.transit.distance)]

/-- A Python value as it can arrive in a config-flow `user_input` dict. -/
inductive PyVal where
  | pstr (s : String)
  | pint (n : ℤ)
  | pfloat (q : ℚ)
  | pbool (b : Bool)
  | pnone
deriving DecidableEq

/-- Parse an unsigned decimal float body: digits with an optional `.` and
fractional digits, at least one digit in total (Python accepts `"5."` and
`".5"`). -/
def parseUnsignedFloat? (cs : List Char) : Option ℚ :=
  match cs.dropWhile Char.isDigit with
  | [] => if cs = [] then none else some ((digitsVal cs : ℕ) : ℚ)
  | '.' :: fp =>
    if fp.all Char.isDigit && !(cs.takeWhile Char.isDigit = [] && fp = []) then
      some (((digitsVal (cs.takeWhile Char.isDigit) : ℕ) : ℚ) +
        ((digitsVal fp : ℕ) : ℚ) / ((10 : ℚ) ^ fp.length))
    else none
  | _ => none

/-- Python `float(s)` on a string: surrounding whitespace stripped, optional
sign, then a finite decimal literal; anything else raises `ValueError` (`none`
here).  (Python additionally accepts exponents, `"inf"`, `"nan"` and
underscores; not modelled — the wizard's inputs of interest are plain
decimals.) -/
def parseFloatStr? (s : String) : Option ℚ :=
  match ((s.toList.dropWhile Char.isWhitespace).reverse.dropWhile
      Char.isWhitespace).reverse with
  | '-' :: rest => (parseUnsignedFloat? rest).map Neg.neg
  | '+' :: rest => parseUnsignedFloat? rest
  | rest => parseUnsignedFloat? rest

/-- Python `float(x)`: numbers pass through, strings are parsed,
`True`/`False` give `1.0`/`0.0`; `None` raises `TypeError` (`none` here). -/
def pyFloat : PyVal → Option ℚ
  | .pstr s => parseFloatStr? s
  | .pint n => some (n : ℚ)
  | .pfloat q => some q
  | .pbool b => some (if b then 1 else 0)
  | .pnone => none

/-- The update-interval validation of `ConfigFlow.async_step_user`
(`config_flow.py` lines 176-183): `update_interval = int(float(x))`, then
`raise ValueError` unless `1 <= update_interval <= 60`, with
`except (ValueError, TypeError)` marking the field invalid (`none` here). -/
def validate_update_interval (v : PyVal) : Option ℤ :=
  match pyFloat v with
  | none => none
  | some q =>
    if ratTrunc q < 1 ∨ 60 < ratTrunc q then none else some (ratTrunc q)

/-- The API-key validation of `async_step_user` (`config_flow.py` line 167):
a 32-character alphanumeric string (absent key gives Python `None`, which
fails the `isinstance` check).  `str.isalnum` is modelled on the
alphanumeric-character predicate. -/
def valid_api_key (v : Option PyVal) : Bool :=
  match v with
  | some (.pstr s) => s.length = 32 && s.toList.all Char.isAlphanum
  | _ => false

/-- The city validation of `async_step_user` (`config_flow.py` line 172):
a nonempty string of at most 20 characters. -/
def valid_city (v : Option PyVal) : Bool :=
  match v with
  | some (.pstr s) => !(s = "") && s.length ≤ 20
  | _ => false

/-- The first wizard step's `user_input` dict: each `.get` result is `none`
when the key is absent. -/
structure UserInput where
  custom_name : Option PyVal
  city : Option PyVal
  api_key : Option PyVal
  update_interval : Option PyVal

/-- What a config-flow step hands back to the host: re-show a form (with the
last value written to `errors["base"]`, if any), or move on.  `nextStep` stands
for the `await self.async_step_<name>()` tail call with no input, which shows
that step's form. -/
inductive StepResult where
  | showForm (step : String) (errorBase : Option String)
  | nextStep (step : String)
deriving DecidableEq

/-- Method `ConfigFlow.async_step_user` (`config_flow.py` lines 160-207).  With no
input the form is shown; otherwise the three validations run in order, each
failure overwriting `errors["base"]` (so the interval error, checked last,
wins), and any error re-shows the same `"user"` step while success stores the
input and advances to the origin step. -/
def async_step_user (user_input : Option UserInput) : StepResult :=
  match user_input with
  | none => .showForm "user" none
  | some u =>
    let e1 : Option String := if valid_api_key u.api_key then none else some "invalid_api_key"
    let e2 : Option String := if valid_city u.city then e1 else some "invalid_city"
    let e3 : Option String :=
      if (validate_update_interval (u.update_interval.getD (.pint 30))).isSome then e2
      else some "invalid_update_interval"
    match e3 with
    | some err => .showForm "user" (some err)
    | none => .nextStep "origin"

/-- The wizard's accumulated attributes when `async_step_finish` runs:
`hasattr(self, x)` is `isSome` here.  `origin_data` is the validated first-step
input; the four location slots are set by the origin/destination sub-steps. -/
structure FlowState where
  origin_data : Option UserInput
  origin_entity_id : Option String
  origin_coordinates : Option String
  destination_entity_id : Option String
  destination_coordinates : Option String

/-- Result of the final assembly step: fall back to an earlier step (the
`await self.async_step_<x>()` re-entries) or create the entry with the
assembled data dict. -/
inductive FinishResult where
  | goUser
  | goOrigin
  | goDestination
  | created (data : List (String × PyVal))

/-- First-match lookup in the assembled data dict; `key in data` is
`(lookupKey data key).isSome`. -/
def lookupKey (data : List (String × PyVal)) (key : String) : Option PyVal :=
  match data with
  | [] => none
  | (k, v) :: rest => if k = key then some v else lookupKey rest key

/-- Method `ConfigFlow.async_step_finish` (`config_flow.py` lines 387-438): missing
first-step data falls back to the user step; a missing origin (neither entity
nor coordinates collected) falls back to the origin step; likewise for the
destination; otherwise the data dict is assembled in the code's insertion
order and — after the final `CONF_X in data` presence check — the entry is
created. -/
def async_step_finish (st : FlowState) : FinishResult :=
  match st.origin_data with
  | none => .goUser
  | some od =>
    let base : List (String × PyVal) :=
      [("name", .pstr "Gaode Commute"),
       ("custom_name", od.custom_name.getD (.pstr "通勤")),
       ("city", od.city.getD .pnone),
       ("api_key", od.api_key.getD .pnone),
       ("update_interval", od.update_interval.getD (.pint 30))]
    let originEntries? : Option (List (String × PyVal)) :=
      match st.origin_entity_id with
      | some eid => some [("origin_entity_id", .pstr eid), ("origin", .pstr ("entity:" ++ eid))]
      | none =>
        match st.origin_coordinates with
        | some coords => some [("origin", .pstr coords)]
        | none => none
    match originEntries? with
    | none => .goOrigin
    | some originEntries =>
      let destinationEntries? : Option (List (String × PyVal)) :=
        match st.destination_entity_id with
        | some eid =>
          some [("destination_entity_id", .pstr eid), ("destination", .pstr ("entity:" ++ eid))]
        | none =>
          match st.destination_coordinates with
          | some coords => some [("destination", .pstr coords)]
          | none => none
      match destinationEntries? with
      | none => .goDestination
      | some destinationEntries =>
        let data := base ++ originEntries ++ destinationEntries
        if ((lookupKey data "city").isSome && (lookupKey data "api_key").isSome &&
            (lookupKey data "origin").isSome && (lookupKey data "destination").isSome) then
          .created data
        else .goUser

/-- The value, if any, that Python `int()` would extract from a JSON field is
non-negative (vacuously true when `int()` would raise). -/
def intValueNonneg (v : JSON) : Bool :=
  match pyInt v with
  | some n => decide (0 ≤ n)
  | none => true

/-- "The API reported non-negative driving figures": the `duration` and
`distance` fields of the first path — the only numeric fields
`_fetch_driving_route` reads — coerce to non-negative integers (vacuously true
when the response does not have that shape). -/
def drivingRespNonneg (data : JSON) : Bool :=
  match data with
  | .obj fields =>
    match dictGet fields "route" (JSON.obj []) with
    | .obj routeFields =>
      match dictGet routeFields "paths" (JSON.arr []) with
      | .arr (path :: _) =>
        match path with
        | .obj pathFields =>
          intValueNonneg (dictGet pathFields "duration" (JSON.num 0)) &&
            intValueNonneg (dictGet pathFields "distance" (JSON.num 0))
        | _ => true
      | _ => true
    | _ => true
  | _ => true

/-- "The API reported non-negative transit figures": the route-level
`distance` and the first transit's `duration` — the only numeric fields
`_fetch_transit_route` reads — have non-negative lenient coercions. -/
def transitRespNonneg (data : JSON) : Bool :=
  match data with
  | .obj fields =>
    match dictGet fields "route" (JSON.obj []) with
    | .obj routeFields =>
      decide (0 ≤ pyIntLenient (dictGet routeFields "distance" (JSON.num 0))) &&
        (match dictGet routeFields "transits" (JSON.arr []) with
         | .arr (transit :: _) =>
           match transit with
           | .obj transitFields =>
             decide (0 ≤ pyIntLenient (dictGet transitFields "duration" (JSON.num 0)))
           | _ => true
         | _ => true)
    | _ => true
  | _ => true

/-- A host with no entities at all. -/
def hostEmpty : HostState := fun _ => none

/-- A host whose single entity `device_tracker.phone` carries the given
longitude/latitude attributes. -/
def phoneHost (lon lat : String) : HostState := fun id =>
  if id = "device_tracker.phone" then some ⟨some lon, some lat⟩ else none

/-- A coordinator coordinate state already holding two literal endpoints. -/
def coordSample : Coord := ⟨"116.40,39.90", "121.47,31.23"⟩

/-- The spec's driving success response. -/
def drivingRespOk : JSON := JSON.obj
  [("status", JSON.str "1"),
   ("route", JSON.obj [("paths", JSON.arr
      [JSON.obj [("duration", JSON.str "1800"), ("distance", JSON.str "15000")]])])]

/-- The spec's driving failure response. -/
def drivingRespInvalid : JSON := JSON.obj
  [("status", JSON.str "0"), ("info", JSON.str "INVALID_PARAMS")]

/-- A driving success response reporting a negative duration. -/
def drivingRespNegative : JSON := JSON.obj
  [("status", JSON.str "1"),
   ("route", JSON.obj [("paths", JSON.arr
      [JSON.obj [("duration", JSON.str "-5"), ("distance", JSON.str "10")]])])]

/-- The spec's transit success response. -/
def transitRespOk : JSON := JSON.obj
  [("status", JSON.str "1"),
   ("route", JSON.obj
      [("distance", JSON.str "8000"),
       ("transits", JSON.arr [JSON.obj [("duration", JSON.str "2400")]])])]

/-- A transit success response whose first transit also carries its own
leg-level `distance`. -/
def transitRespLegDistance : JSON := JSON.obj
  [("status", JSON.str "1"),
   ("route", JSON.obj
      [("distance", JSON.str "8000"),
       ("transits", JSON.arr
          [JSON.obj [("duration", JSON.str "2400"), ("distance", JSON.str "999")]])])]

/-- A transit success response whose first transit's `duration` has the wrong
type (a list), which the guarded coercion maps to `0`. -/
def transitRespBadDuration : JSON := JSON.obj
  [("status", JSON.str "1"),
   ("route", JSON.obj
      [("distance", JSON.str "8000"),
       ("transits", JSON.arr [JSON.obj [("duration", JSON.arr [])]])])]

/-- The `route` object of a transit response with a positive route-level
distance but an empty `transits` list. -/
def emptyTransitsRoute : List (String × JSON) :=
  [("distance", JSON.str "8000"), ("transits", JSON.arr [])]

/-- A transit success response with a positive route-level distance but an
empty `transits` list. -/
def transitRespEmptyTransits : JSON := JSON.obj
  [("status", JSON.str "1"), ("route", JSON.obj emptyTransitsRoute)]

/-- A first-step input whose API key and city are valid but whose update
interval is `0`. -/
def badIntervalInput : UserInput :=
  ⟨some (.pstr "回家"), some (.pstr "北京"),
   some (.pstr "0123456789abcdef0123456789abcdef"), some (.pint 0)⟩

/-- A wizard state that reached the final step with a validated first step and
an origin, but no destination. -/
def flowStateNoDestination : FlowState :=
  ⟨some badIntervalInput, none, some "116.40,39.90", none, none⟩

lemma pyRound_intCast (n : ℤ) : pyRound (n : ℚ) = n := by
  unfold pyRound
  rw [Int.floor_intCast, sub_self, if_pos (by norm_num)]

lemma pyRound_eq_intCast (q : ℚ) (n : ℤ) (h : q = (n : ℚ)) : pyRound q = n := by
  rw [h, pyRound_intCast]

lemma ratTrunc_intCast (n : ℤ) : ratTrunc (n : ℚ) = n := by
  unfold ratTrunc
  rcases lt_or_ge (n : ℚ) 0 with h | h
  · rw [if_pos h, ← Int.cast_neg, Int.floor_intCast, neg_neg]
  · rw [if_neg (not_lt.mpr h), Int.floor_intCast]

lemma ratTrunc_eq_intCast (q : ℚ) (n : ℤ) (h : q = (n : ℚ)) : ratTrunc q = n := by
  rw [h, ratTrunc_intCast]

lemma ratTrunc_nonneg (q : ℚ) (h : 0 ≤ q) : 0 ≤ ratTrunc q := by
  unfold ratTrunc
  rw [if_neg (not_lt.mpr h)]
  exact Int.floor_nonneg.mpr h

lemma pyInt_nonneg (v : JSON) (n : ℤ) (hv : intValueNonneg v = true) (h : pyInt v = some n) :
    0 ≤ n := by
  unfold intValueNonneg at hv
  rw [h] at hv
  simpa using hv

lemma parse_driving_nonneg (data : JSON) (h : drivingRespNonneg data = true) :
    0 ≤ (parse_driving_response data).duration ∧ 0 ≤ (parse_driving_response data).distance := by
  cases data with
  | obj fields =>
    simp only [parse_driving_response]
    cases hst : dictGet fields "status" JSON.null with
    | str s =>
      try dsimp only
      by_cases h1 : s = "1"
      · subst h1
        rw [if_pos rfl]
        cases hr : dictGet fields "route" (JSON.obj []) with
        | obj routeFields =>
          try dsimp only
          cases hp : dictGet routeFields "paths" (JSON.arr []) with
          | arr paths =>
            try dsimp only
            cases paths with
            | nil => exact ⟨le_rfl, le_rfl⟩
            | cons path rest =>
              try dsimp only
              cases path with
              | obj pathFields =>
                try dsimp only
                simp only [drivingRespNonneg, hr, hp, Bool.and_eq_true] at h
                cases hdu : pyInt (dictGet pathFields "duration" (JSON.num 0)) with
                | none => exact ⟨le_rfl, le_rfl⟩
                | some du =>
                  try dsimp only
                  cases hdi : pyInt (dictGet pathFields "distance" (JSON.num 0)) with
                  | none => exact ⟨le_rfl, le_rfl⟩
                  | some di => exact ⟨pyInt_nonneg _ _ h.1 hdu, pyInt_nonneg _ _ h.2 hdi⟩
              | null => exact ⟨le_rfl, le_rfl⟩
              | bool b => exact ⟨le_rfl, le_rfl⟩
              | num q => exact ⟨le_rfl, le_rfl⟩
              | str t => exact ⟨le_rfl, le_rfl⟩
              | arr es => exact ⟨le_rfl, le_rfl⟩
          | null => exact ⟨le_rfl, le_rfl⟩
          | bool b => exact ⟨le_rfl, le_rfl⟩
          | num q => exact ⟨le_rfl, le_rfl⟩
          | str t => exact ⟨le_rfl, le_rfl⟩
          | obj fs => exact ⟨le_rfl, le_rfl⟩
        | null => exact ⟨le_rfl, le_rfl⟩
        | bool b => exact ⟨le_rfl, le_rfl⟩
        | num q => exact ⟨le_rfl, le_rfl⟩
        | str t => exact ⟨le_rfl, le_rfl⟩
        | arr es => exact ⟨le_rfl, le_rfl⟩
      · rw [if_neg h1]
        exact ⟨le_rfl, le_rfl⟩
    | null => exact ⟨le_rfl, le_rfl⟩
    | bool b => exact ⟨le_rfl, le_rfl⟩
    | num q => exact ⟨le_rfl, le_rfl⟩
    | arr es => exact ⟨le_rfl, le_rfl⟩
    | obj fs => exact ⟨le_rfl, le_rfl⟩
  | null => exact ⟨le_rfl, le_rfl⟩
  | bool b => exact ⟨le_rfl, le_rfl⟩
  | num q => exact ⟨le_rfl, le_rfl⟩
  | str s => exact ⟨le_rfl, le_rfl⟩
  | arr es => exact ⟨le_rfl, le_rfl⟩

lemma parse_transit_nonneg (data : JSON) (h : transitRespNonneg data = true) :
    0 ≤ (parse_transit_response data).duration ∧ 0 ≤ (parse_transit_response data).distance := by
  cases data with
  | obj fields =>
    simp only [parse_transit_response]
    cases hst : dictGet fields "status" JSON.null with
    | str s =>
      try dsimp only
      by_cases h1 : s = "1"
      · subst h1
        rw [if_pos rfl]
        cases hr : dictGet fields "route" (JSON.obj []) with
        | obj routeFields =>
          try dsimp only
          cases ht : dictGet routeFields "transits" (JSON.arr []) with
          | arr transits =>
            try dsimp only
            cases transits with
            | nil => exact ⟨le_rfl, le_rfl⟩
            | cons transit rest =>
              try dsimp only
              cases transit with
              | obj transitFields =>
                simp only [transitRespNonneg, hr, ht, Bool.and_eq_true,
                  decide_eq_true_eq] at h
                exact ⟨h.2, h.1⟩
              | null => exact ⟨le_rfl, le_rfl⟩
              | bool b => exact ⟨le_rfl, le_rfl⟩
              | num q => exact ⟨le_rfl, le_rfl⟩
              | str t => exact ⟨le_rfl, le_rfl⟩
              | arr es => exact ⟨le_rfl, le_rfl⟩
          | null => exact ⟨le_rfl, le_rfl⟩
          | bool b => exact ⟨le_rfl, le_rfl⟩
          | num q => exact ⟨le_rfl, le_rfl⟩
          | str t => exact ⟨le_rfl, le_rfl⟩
          | obj fs => exact ⟨le_rfl, le_rfl⟩
        | null => exact ⟨le_rfl, le_rfl⟩
        | bool b => exact ⟨le_rfl, le_rfl⟩
        | num q => exact ⟨le_rfl, le_rfl⟩
        | str t => exact ⟨le_rfl, le_rfl⟩
        | arr es => exact ⟨le_rfl, le_rfl⟩
      · rw [if_neg h1]
        exact ⟨le_rfl, le_rfl⟩
    | null => exact ⟨le_rfl, le_rfl⟩
    | bool b => exact ⟨le_rfl, le_rfl⟩
    | num q => exact ⟨le_rfl, le_rfl⟩
    | arr es => exact ⟨le_rfl, le_rfl⟩
    | obj fs => exact ⟨le_rfl, le_rfl⟩
  | null => exact ⟨le_rfl, le_rfl⟩
  | bool b => exact ⟨le_rfl, le_rfl⟩
  | num q => exact ⟨le_rfl, le_rfl⟩
  | str s => exact ⟨le_rfl, le_rfl⟩
  | arr es => exact ⟨le_rfl, le_rfl⟩

lemma fetch_driving_nonneg (host : HostState) (c : Coord) (resp : Option JSON)
    (h : resp.all drivingRespNonneg = true) :
    0 ≤ (fetch_driving_route host c resp).2.duration ∧
      0 ≤ (fetch_driving_route host c resp).2.distance := by
  unfold fetch_driving_route
  split
  · exact ⟨le_rfl, le_rfl⟩
  · cases resp with
    | none => exact ⟨le_rfl, le_rfl⟩
    | some data =>
      simp only [Option.all] at h
      exact parse_driving_nonneg data h

lemma fetch_transit_nonneg (host : HostState) (c : Coord) (resp : Option JSON)
    (h : resp.all transitRespNonneg = true) :
    0 ≤ (fetch_transit_route host c resp).2.duration ∧
      0 ≤ (fetch_transit_route host c resp).2.distance := by
  unfold fetch_transit_route
  split
  · exact ⟨le_rfl, le_rfl⟩
  · cases resp with
    | none => exact ⟨le_rfl, le_rfl⟩
    | some data =>
      simp only [Option.all] at h
      exact parse_transit_nonneg data h

/-- C9 (amended): for every host state, refresh environment and coordinate
state, the Snapshot returned by `_async_update_data` has four integer fields,
and they are all non-negative provided the duration/distance values the code
extracts from each response (when the response has the extractable shape) are
non-negative — in particular on every error path they are exactly `0`.  The
claim's unconditional version fails because a response reporting a negative
duration string is coerced sign and all (see the counterexample). -/
theorem c9_snapshot_fields_nonneg (host : HostState) (env : TickEnv) (c : Coord)
    (hd : env.drivingResp.all drivingRespNonneg = true)
    (ht : env.transitResp.all transitRespNonneg = true) :
    0 ≤ (async_update_data host env c).2.driving.duration ∧
      0 ≤ (async_update_data host env c).2.driving.distance ∧
      0 ≤ (async_update_data host env c).2.transit.duration ∧
      0 ≤ (async_update_data host env c).2.transit.distance := by
  unfold async_update_data
  split
  · exact ⟨le_rfl, le_rfl, le_rfl, le_rfl⟩
  · cases hup : update_entity_locations host c with
    | mk c1 ok =>
      cases ok with
      | false => exact ⟨le_rfl, le_rfl, le_rfl, le_rfl⟩
      | true =>
        exact ⟨(fetch_driving_nonneg host c1 env.drivingResp hd).1,
          (fetch_driving_nonneg host c1 env.drivingResp hd).2,
          (fetch_transit_nonneg host (fetch_driving_route host c1 env.drivingResp).1
            env.transitResp ht).1,
          (fetch_transit_nonneg host (fetch_driving_route host c1 env.drivingResp).1
            env.transitResp ht).2⟩

/-- C9 witness: the non-negativity theorem applied to a concrete refresh whose
two responses are the spec's example driving and transit responses. -/
theorem c9_witness :
    0 ≤ (async_update_data hostEmpty ⟨false, some drivingRespOk, some transitRespOk⟩
        coordSample).2.driving.duration ∧
      0 ≤ (async_update_data hostEmpty ⟨false, some drivingRespOk, some transitRespOk⟩
        coordSample).2.driving.distance ∧
      0 ≤ (async_update_data hostEmpty ⟨false, some drivingRespOk, some transitRespOk⟩
        coordSample).2.transit.duration ∧
      0 ≤ (async_update_data hostEmpty ⟨false, some drivingRespOk, some transitRespOk⟩
        coordSample).2.transit.distance :=
  c9_snapshot_fields_nonneg hostEmpty ⟨false, some drivingRespOk, some transitRespOk⟩
    coordSample (by decide) (by decide)

/-- C9 counterexample: a driving response with `status "1"` whose first path
reports `duration "-5"` makes the scheduled refresh return a Snapshot with a
negative driving duration, so the fields are not always `≥ 0`. -/
theorem c9_counterexample :
    (async_update_data hostEmpty ⟨false, some drivingRespNegative, none⟩
        coordSample).2.driving.duration < 0 := by decide

/-- C3: the driving-route response handling.  When the decoded body has
`status == "1"` and a non-empty `route.paths` whose first path's
`duration`/`distance` coerce to integers, the result is exactly those two
integers (the spec's example response gives `{1800, 15000}`); for any body
whose `status` is not the string `"1"` — e.g. the `INVALID_PARAMS` example —
the result is the zero record, and the handler is a total function, so no
exception escapes. -/
theorem c3_driving_response_parse :
    (∀ (fields routeFields pathFields : List (String × JSON)) (path : JSON)
        (rest : List JSON) (du di : ℤ),
        dictGet fields "status" JSON.null = JSON.str "1" →
        dictGet fields "route" (JSON.obj []) = JSON.obj routeFields →
        dictGet routeFields "paths" (JSON.arr []) = JSON.arr (path :: rest) →
        path = JSON.obj pathFields →
        pyInt (dictGet pathFields "duration" (JSON.num 0)) = some du →
        pyInt (dictGet pathFields "distance" (JSON.num 0)) = some di →
        parse_driving_response (JSON.obj fields) = ⟨du, di⟩) ∧
    parse_driving_response drivingRespOk = ⟨1800, 15000⟩ ∧
    (∀ fields : List (String × JSON),
        dictGet fields "status" JSON.null ≠ JSON.str "1" →
        parse_driving_response (JSON.obj fields) = zeroEstimate) ∧
    parse_driving_response drivingRespInvalid = zeroEstimate := by
  refine ⟨?_, by decide, ?_, by decide⟩
  · intro fields routeFields pathFields path rest du di hst hr hp hpf hdu hdi
    subst hpf
    simp only [parse_driving_response, hst, hr, hp, hdu, hdi, if_true, eq_self_iff_true]
  · intro fields hne
    simp only [parse_driving_response]
    cases h2 : dictGet fields "status" JSON.null with
    | str s =>
      try dsimp only
      by_cases h1 : s = "1"
      · subst h1
        exact absurd h2 hne
      · rw [if_neg h1]
    | null => rfl
    | bool b => rfl
    | num q => rfl
    | arr es => rfl
    | obj fs => rfl

/-- C3 witness: the general happy-path clause of the parsing theorem applied
to the spec's concrete driving response. -/
theorem c3_witness : parse_driving_response drivingRespOk = ⟨1800, 15000⟩ :=
  c3_driving_response_parse.1
    [("status", JSON.str "1"),
     ("route", JSON.obj [("paths", JSON.arr
        [JSON.obj [("duration", JSON.str "1800"), ("distance", JSON.str "15000")]])])]
    [("paths", JSON.arr
        [JSON.obj [("duration", JSON.str "1800"), ("distance", JSON.str "15000")]])]
    [("duration", JSON.str "1800"), ("distance", JSON.str "15000")]
    (JSON.obj [("duration", JSON.str "1800"), ("distance", JSON.str "15000")]) []
    1800 15000 rfl rfl rfl rfl rfl rfl

/-- C4: the transit-route response handling.  On a `status == "1"` body whose
`route` is an object and whose `transits` is a list with an object head, the
result takes its duration from the first transit and its distance from the
route-level `distance` field (so any leg-level distance is ignored, as the
two concrete examples show); a body that is not an object, a `route` that is
not an object, or a `transits` that is not a list each yield the zero record
instead of an exception (the handler is total). -/
theorem c4_transit_response_parse :
    (∀ (fields routeFields transitFields : List (String × JSON)) (transit : JSON)
        (rest : List JSON),
        dictGet fields "status" JSON.null = JSON.str "1" →
        dictGet fields "route" (JSON.obj []) = JSON.obj routeFields →
        dictGet routeFields "transits" (JSON.arr []) = JSON.arr (transit :: rest) →
        transit = JSON.obj transitFields →
        parse_transit_response (JSON.obj fields) =
          ⟨pyIntLenient (dictGet transitFields "duration" (JSON.num 0)),
           pyIntLenient (dictGet routeFields "distance" (JSON.num 0))⟩) ∧
    (∀ data : JSON, (∀ fields, data ≠ JSON.obj fields) →
        parse_transit_response data = zeroEstimate) ∧
    (∀ fields : List (String × JSON),
        (∀ routeFields, dictGet fields "route" (JSON.obj []) ≠ JSON.obj routeFields) →
        parse_transit_response (JSON.obj fields) = zeroEstimate) ∧
    (∀ (fields routeFields : List (String × JSON)),
        dictGet fields "route" (JSON.obj []) = JSON.obj routeFields →
        (∀ transits, dictGet routeFields "transits" (JSON.arr []) ≠ JSON.arr transits) →
        parse_transit_response (JSON.obj fields) = zeroEstimate) ∧
    parse_transit_response transitRespOk = ⟨2400, 8000⟩ ∧
    parse_transit_response transitRespLegDistance = ⟨2400, 8000⟩ := by
  refine ⟨?_, ?_, ?_, ?_, by decide, by decide⟩
  · intro fields routeFields transitFields transit rest hst hr ht htr
    subst htr
    simp only [parse_transit_response, hst, hr, ht, if_true, eq_self_iff_true]
  · intro data hne
    cases data with
    | obj fields => exact absurd rfl (hne fields)
    | null => rfl
    | bool b => rfl
    | num q => rfl
    | str s => rfl
    | arr es => rfl
  · intro fields hne
    simp only [parse_transit_response]
    cases hst : dictGet fields "status" JSON.null with
    | str s =>
      try dsimp only
      exact ite_self zeroEstimate
    | null => rfl
    | bool b => rfl
    | num q => rfl
    | arr es => rfl
    | obj fs => rfl
  · intro fields routeFields hr hne
    simp only [parse_transit_response, hr]
    cases hst : dictGet fields "status" JSON.null with
    | str s =>
      try dsimp only
      exact ite_self zeroEstimate
    | null => rfl
    | bool b => rfl
    | num q => rfl
    | arr es => rfl
    | obj fs => rfl

/-- C4 witness: the happy-path clause applied to the spec's concrete transit
response, and the not-an-object clause applied to a bare string body. -/
theorem c4_witness :
    parse_transit_response transitRespOk = ⟨2400, 8000⟩ ∧
      parse_transit_response (JSON.str "oops") = zeroEstimate := by
  constructor
  · exact c4_transit_response_parse.1
      [("status", JSON.str "1"),
       ("route", JSON.obj
          [("distance", JSON.str "8000"),
           ("transits", JSON.arr [JSON.obj [("duration", JSON.str "2400")]])])]
      [("distance", JSON.str "8000"),
       ("transits", JSON.arr [JSON.obj [("duration", JSON.str "2400")]])]
      [("duration", JSON.str "2400")]
      (JSON.obj [("duration", JSON.str "2400")]) [] rfl rfl rfl rfl
  · exact c4_transit_response_parse.2.1 (JSON.str "oops") fun fields h => JSON.noConfusion h

/-- C10: a transit response with `status "1"`, a well-formed `route` object and
an empty `transits` list yields the all-zero record: the route-level distance
(positive in the concrete example, as the last clause shows) is discarded
rather than returned with a zero duration. -/
theorem c10_empty_transits_discards_distance :
    (∀ (fields routeFields : List (String × JSON)),
        dictGet fields "route" (JSON.obj []) = JSON.obj routeFields →
        dictGet routeFields "transits" (JSON.arr []) = JSON.arr [] →
        parse_transit_response (JSON.obj fields) = zeroEstimate) ∧
    parse_transit_response transitRespEmptyTransits = zeroEstimate ∧
    0 < pyIntLenient (dictGet emptyTransitsRoute "distance" (JSON.num 0)) := by
  refine ⟨?_, by decide, by decide⟩
  · intro fields routeFields hr ht
    simp only [parse_transit_response, hr, ht]
    cases hst : dictGet fields "status" JSON.null with
    | str s =>
      try dsimp only
      by_cases h1 : s = "1"
      · subst h1
        rw [if_pos rfl]
      · rw [if_neg h1]
    | null => rfl
    | bool b => rfl
    | num q => rfl
    | arr es => rfl
    | obj fs => rfl

/-- C10 witness: the general clause applied to the concrete empty-`transits`
response. -/
theorem c10_witness : parse_transit_response transitRespEmptyTransits = zeroEstimate :=
  c10_empty_transits_discards_distance.1
    [("status", JSON.str "1"), ("route", JSON.obj emptyTransitsRoute)]
    emptyTransitsRoute rfl rfl

lemma fetch_driving_none (host : HostState) (c : Coord) :
    (fetch_driving_route host c none).2 = zeroEstimate := by
  unfold fetch_driving_route
  split
  · rfl
  · rfl

lemma fetch_transit_none (host : HostState) (c : Coord) :
    (fetch_transit_route host c none).2 = zeroEstimate := by
  unfold fetch_transit_route
  split
  · rfl
  · rfl

/-- C2 (amended): `_async_update_data` is a total function of the refresh
environment — every exception the code can encounter is caught and mapped to a
zero value, so nothing propagates out of a scheduled refresh.  A timeout or a
failed entity resolution yields the all-zero Snapshot; a request that fails or
whose body cannot be decoded zeroes that route's estimate.  The claim's "the
Snapshot is all-zero on every failure" is too strong: a wrong-typed field
inside an otherwise well-formed transit response zeroes only that field (see
the counterexample). -/
theorem c2_refresh_soft_failure :
    (∀ (host : HostState) (env : TickEnv) (c : Coord), env.timeout = true →
        (async_update_data host env c).2 = zeroSnapshot) ∧
    (∀ (host : HostState) (env : TickEnv) (c : Coord), env.timeout = false →
        (update_entity_locations host c).2 = false →
        (async_update_data host env c).2 = zeroSnapshot) ∧
    (∀ (host : HostState) (env : TickEnv) (c : Coord), env.drivingResp = none →
        (async_update_data host env c).2.driving = zeroEstimate) ∧
    (∀ (host : HostState) (env : TickEnv) (c : Coord), env.transitResp = none →
        (async_update_data host env c).2.transit = zeroEstimate) := by
  refine ⟨?_, ?_, ?_, ?_⟩
  · intro host env c h
    simp [async_update_data, h]
  · intro host env c h1 h2
    unfold async_update_data
    rw [if_neg (by simp [h1])]
    cases hup : update_entity_locations host c with
    | mk c1 ok =>
      rw [hup] at h2
      cases ok
      · rfl
      · simp at h2
  · intro host env c h
    unfold async_update_data
    split
    · rfl
    · cases hup : update_entity_locations host c with
      | mk c1 ok =>
        cases ok
        · rfl
        · show (fetch_driving_route host c1 env.drivingResp).2 = zeroEstimate
          rw [h]
          exact fetch_driving_none host c1
  · intro host env c h
    unfold async_update_data
    split
    · rfl
    · cases hup : update_entity_locations host c with
      | mk c1 ok =>
        cases ok
        · rfl
        · show (fetch_transit_route host
              (fetch_driving_route host c1 env.drivingResp).1 env.transitResp).2 = zeroEstimate
          rw [h]
          exact fetch_transit_none host (fetch_driving_route host c1 env.drivingResp).1

/-- C2 witness: the amended theorem applied to a concrete timed-out refresh and
to a concrete refresh whose entity-based origin refers to a missing entity. -/
theorem c2_witness :
    (async_update_data hostEmpty ⟨true, none, none⟩ coordSample).2 = zeroSnapshot ∧
      (async_update_data (phoneHost "116.40" "39.90") ⟨false, none, none⟩
          ⟨"entity:device_tracker.missing", "121.47,31.23"⟩).2 = zeroSnapshot :=
  ⟨c2_refresh_soft_failure.1 hostEmpty ⟨true, none, none⟩ coordSample rfl,
   c2_refresh_soft_failure.2.1 (phoneHost "116.40" "39.90") ⟨false, none, none⟩
     ⟨"entity:device_tracker.missing", "121.47,31.23"⟩ rfl (by decide)⟩

/-- C2 counterexample: a refresh whose only failures are a failed driving
request and a wrong-typed transit `duration` (a list, i.e. a "wrong field
types" input) returns `{driving: {0,0}, transit: {0, 8000}}`, which is not the
zero-valued Snapshot the claim promises for every failure input. -/
theorem c2_counterexample :
    (async_update_data hostEmpty ⟨false, none, some transitRespBadDuration⟩ coordSample).2
        = ⟨zeroEstimate, ⟨0, 8000⟩⟩ ∧
      (async_update_data hostEmpty ⟨false, none, some transitRespBadDuration⟩ coordSample).2
        ≠ zeroSnapshot := by
  exact ⟨by decide, by decide⟩

/-- C1: entity-based endpoints are *not* re-read on every refresh.
`async_setup_entry` resolves `"entity:device_tracker.phone"` to the literal
string `"116.40,39.90"` before the coordinator is built, so when the entity has
moved to `(117.00, 40.00)` the next refresh leaves the coordinator's origin at
the stale setup-time value instead of the entity's current position — the
`"entity:"` prefix check in `_update_entity_locations` can never fire again.
The spec's intended behaviour (re-read each tick, which the per-tick
`_update_entity_locations` call and the stored entity ids were clearly written
for) does not hold of the code. -/
theorem c1_entity_coordinates_not_reread :
    setup_resolve (phoneHost "116.40" "39.90") "entity:device_tracker.phone" "121.47,31.23"
        = some ("116.40,39.90", "121.47,31.23") ∧
      resolveEntity (phoneHost "117.00" "40.00") "device_tracker.phone"
        = some "117.00,40.00" ∧
      (async_update_data (phoneHost "117.00" "40.00") ⟨false, none, none⟩
          ⟨"116.40,39.90", "121.47,31.23"⟩).1
        = ⟨"116.40,39.90", "121.47,31.23"⟩ := by
  exact ⟨by decide, by decide, by decide⟩

/-- C5: the sensor's numeric state is `round(driving.durationSeconds / 60)`
exactly when the driving duration is positive (5400 s gives 90), and otherwise
the state is undefined and the sensor unavailable; the availability flag
equals "driving duration is positive" and selects the icon (clock when
available, disabled car when not). -/
theorem c5_sensor_state_and_availability :
    (∀ s : Snapshot, native_value (some s) =
        if 0 < s.driving.duration
        then (some (pyRound ((s.driving.duration : ℚ) / 60)), true)
        else (none, false)) ∧
    native_value (some ⟨⟨5400, 0⟩, ⟨0, 0⟩⟩) = (some 90, true) ∧
    native_value (some ⟨⟨0, 0⟩, ⟨0, 0⟩⟩) = (none, false) ∧
    (∀ s : Snapshot, (native_value (some s)).2 = decide (0 < s.driving.duration)) ∧
    (∀ s : Snapshot, sensor_icon (native_value (some s)).2 =
        if 0 < s.driving.duration then Icon.carClock else Icon.carOff) := by
  have key : ∀ s : Snapshot, native_value (some s) =
      if 0 < s.driving.duration
      then (some (pyRound ((s.driving.duration : ℚ) / 60)), true)
      else (none, false) := by
    intro s
    simp only [native_value]
    rcases le_or_lt s.driving.duration 0 with h | h
    · rw [if_pos h, if_neg (not_lt.mpr h)]
    · rw [if_neg (not_le.mpr h), if_pos h]
  refine ⟨key, ?_, rfl, ?_, ?_⟩
  · have h : native_value (some ⟨⟨5400, 0⟩, ⟨0, 0⟩⟩)
        = (some (pyRound (((5400 : ℤ) : ℚ) / 60)), true) := rfl
    rw [h, pyRound_eq_intCast _ 90 (by norm_num)]
  · intro s
    rw [key s]
    rcases lt_or_le 0 s.driving.duration with h | h
    · rw [if_pos h]
      simp [h]
    · rw [if_neg (not_lt.mpr h)]
      simp [not_lt.mpr h]
  · intro s
    rw [key s]
    rcases lt_or_le 0 s.driving.duration with h | h
    · rw [if_pos h, if_pos h]
      rfl
    · rw [if_neg (not_lt.mpr h), if_neg (not_lt.mpr h)]
      rfl

/-- C6: the four attribute strings come from the duration/distance formatters,
and those formatters behave as specified: durations `≤ 0` render `"未知"`,
durations over two hours (strictly more than 7200 s) render as hours to two
decimals with suffix `小时` (9000 s gives `"2.50小时"`), other positive
durations render as whole minutes with suffix `分钟` (600 s gives `"10分钟"`);
distances `≤ 0` render `"未知"`, positive distances as kilometers to one
decimal with suffix `公里`. -/
theorem c6_attribute_formatting :
    (∀ s : Snapshot, extra_state_attributes (some s) =
        [("驾车通勤时间", format_duration s.driving.duration),
         ("驾车通勤距离", format_distance s.driving.distance),
         ("公交通勤时间", format_duration s.transit.duration),
         ("公交通勤距离", format_distance s.transit.distance)]) ∧
    (∀ d : ℤ, d ≤ 0 → format_duration d = "未知") ∧
    (∀ d : ℤ, 7200 < d → format_duration d = formatFixed ((d : ℚ) / 3600) 2 ++ "小时") ∧
    (∀ d : ℤ, 0 < d → d ≤ 7200 →
        format_duration d = toString (ratTrunc ((d : ℚ) / 60)) ++ "分钟") ∧
    format_duration 9000 = "2.50小时" ∧
    format_duration 600 = "10分钟" ∧
    (∀ m : ℤ, m ≤ 0 → format_distance m = "未知") ∧
    (∀ m : ℤ, 0 < m → format_distance m = formatFixed ((m : ℚ) / 1000) 1 ++ "公里") ∧
    format_distance 0 = "未知" ∧
    format_distance 15000 = "15.0公里" := by
  refine ⟨fun s => rfl, ?_, ?_, ?_, ?_, ?_, ?_, ?_, rfl, ?_⟩
  · intro d h
    unfold format_duration
    rw [if_pos h]
  · intro d h
    unfold format_duration
    rw [if_neg (by omega : ¬ d ≤ 0)]
    have h120 : (120 : ℚ) < (d : ℚ) / 60 := by
      rw [lt_div_iff₀ (by norm_num : (0 : ℚ) < 60)]
      norm_num
      exact_mod_cast h
    rw [if_pos h120, div_div]
    norm_num
  · intro d h1 h2
    unfold format_duration
    rw [if_neg (by omega : ¬ d ≤ 0)]
    have h120 : ¬ (120 : ℚ) < (d : ℚ) / 60 := by
      rw [not_lt, div_le_iff₀ (by norm_num : (0 : ℚ) < 60)]
      norm_num
      exact_mod_cast h2
    rw [if_neg h120]
  · unfold format_duration
    rw [if_neg (by norm_num), if_pos (by norm_num : (120 : ℚ) < ((9000 : ℤ) : ℚ) / 60)]
    unfold formatFixed
    rw [pyRound_eq_intCast _ 250 (by norm_num)]
    decide
  · unfold format_duration
    rw [if_neg (by norm_num), if_neg (by norm_num : ¬ (120 : ℚ) < ((600 : ℤ) : ℚ) / 60),
      ratTrunc_eq_intCast _ 10 (by norm_num)]
    decide
  · intro m h
    unfold format_distance
    rw [if_pos h]
  · intro m h
    unfold format_distance
    rw [if_neg (by omega : ¬ m ≤ 0)]
  · unfold format_distance
    rw [if_neg (by norm_num)]
    unfold formatFixed
    rw [pyRound_eq_intCast _ 150 (by norm_num)]
    decide

/-- C6 witness: the formatting theorem's conditional clauses applied at
concrete durations and distances. -/
theorem c6_witness :
    format_duration 0 = "未知" ∧
      format_duration 9000 = formatFixed (((9000 : ℤ) : ℚ) / 3600) 2 ++ "小时" ∧
      format_distance (-2) = "未知" ∧
      format_distance 1000 = formatFixed (((1000 : ℤ) : ℚ) / 1000) 1 ++ "公里" :=
  ⟨c6_attribute_formatting.2.1 0 (by decide),
   c6_attribute_formatting.2.2.1 9000 (by decide),
   c6_attribute_formatting.2.2.2.2.2.2.1 (-2) (by decide),
   c6_attribute_formatting.2.2.2.2.2.2.2.1 1000 (by decide)⟩

/-- C7: the wizard's update-interval validation is `int(float(x))` then a
`[1, 60]` range check: anything that does not parse as a number is rejected,
anything that does is truncated to an integer and accepted exactly when that
integer lies in `[1, 60]` — so integers and integer-valued floats in `[1, 60]`
are accepted while `0`, `61`, non-numeric strings and negative numbers are
rejected — and a rejected interval re-shows the same `"user"` step with the
interval field error. -/
theorem c7_update_interval_validation :
    (∀ v : PyVal, pyFloat v = none → validate_update_interval v = none) ∧
    (∀ (v : PyVal) (q : ℚ), pyFloat v = some q → 1 ≤ ratTrunc q → ratTrunc q ≤ 60 →
        validate_update_interval v = some (ratTrunc q)) ∧
    (∀ (v : PyVal) (q : ℚ), pyFloat v = some q → (ratTrunc q < 1 ∨ 60 < ratTrunc q) →
        validate_update_interval v = none) ∧
    (∀ n : ℤ, 1 ≤ n → n ≤ 60 →
        validate_update_interval (.pint n) = some n ∧
          validate_update_interval (.pfloat (n : ℚ)) = some n) ∧
    validate_update_interval (.pint 0) = none ∧
    validate_update_interval (.pint 61) = none ∧
    validate_update_interval (.pstr "abc") = none ∧
    (∀ n : ℤ, n < 0 → validate_update_interval (.pint n) = none) ∧
    (∀ u : UserInput, validate_update_interval (u.update_interval.getD (.pint 30)) = none →
        async_step_user (some u) = .showForm "user" (some "invalid_update_interval")) := by
  refine ⟨?_, ?_, ?_, ?_, by decide, by decide, by decide, ?_, ?_⟩
  · intro v h
    unfold validate_update_interval
    rw [h]
  · intro v q h h1 h2
    unfold validate_update_interval
    rw [h]
    try dsimp only
    rw [if_neg (by omega)]
  · intro v q h h1
    unfold validate_update_interval
    rw [h]
    try dsimp only
    rw [if_pos h1]
  · intro n h1 h2
    constructor
    · unfold validate_update_interval pyFloat
      try dsimp only
      rw [ratTrunc_intCast, if_neg (by omega)]
    · unfold validate_update_interval pyFloat
      try dsimp only
      rw [ratTrunc_intCast, if_neg (by omega)]
  · intro n h
    unfold validate_update_interval pyFloat
    try dsimp only
    rw [ratTrunc_intCast, if_pos (Or.inl (by omega))]
  · intro u h
    simp [async_step_user, h]

/-- C7 witness: the validation theorem applied at a concrete accepted integer,
a concrete rejected negative, and the concrete bad-interval first-step input
that re-shows the user step. -/
theorem c7_witness :
    validate_update_interval (.pint 30) = some 30 ∧
      validate_update_interval (.pint (-3)) = none ∧
      async_step_user (some badIntervalInput) = .showForm "user"
        (some "invalid_update_interval") :=
  ⟨(c7_update_interval_validation.2.2.2.1 30 (by decide) (by decide)).1,
   c7_update_interval_validation.2.2.2.2.2.2.2.1 (-3) (by decide),
   c7_update_interval_validation.2.2.2.2.2.2.2.2 badIntervalInput (by decide)⟩

/-- C8: the wizard's final assembly step never creates an entry from partial
data: with no validated first step it re-enters the user step; with a first
step but no collected origin it re-enters the origin step; with both but no
collected destination it re-enters the destination step; and whenever it does
create an entry, all three groups of inputs were present. -/
theorem c8_finish_requires_prior_steps :
    (∀ st : FlowState, st.origin_data = none →
        async_step_finish st = FinishResult.goUser) ∧
    (∀ st : FlowState, st.origin_data ≠ none → st.origin_entity_id = none →
        st.origin_coordinates = none → async_step_finish st = FinishResult.goOrigin) ∧
    (∀ st : FlowState, st.origin_data ≠ none →
        (st.origin_entity_id ≠ none ∨ st.origin_coordinates ≠ none) →
        st.destination_entity_id = none → st.destination_coordinates = none →
        async_step_finish st = FinishResult.goDestination) ∧
    (∀ (st : FlowState) (d : List (String × PyVal)),
        async_step_finish st = FinishResult.created d →
        st.origin_data ≠ none ∧
          (st.origin_entity_id ≠ none ∨ st.origin_coordinates ≠ none) ∧
          (st.destination_entity_id ≠ none ∨ st.destination_coordinates ≠ none)) := by
  refine ⟨?_, ?_, ?_, ?_⟩
  · intro st h
    simp [async_step_finish, h]
  · intro st h1 h2 h3
    obtain ⟨od, hod⟩ := Option.ne_none_iff_exists'.mp h1
    simp [async_step_finish, hod, h2, h3]
  · intro st h1 h2 h3 h4
    obtain ⟨od, hod⟩ := Option.ne_none_iff_exists'.mp h1
    cases he : st.origin_entity_id with
    | some e => simp [async_step_finish, hod, he, h3, h4]
    | none =>
      rcases h2 with h2 | h2
      · exact absurd he h2
      · obtain ⟨oc, hoc⟩ := Option.ne_none_iff_exists'.mp h2
        simp [async_step_finish, hod, he, hoc, h3, h4]
  · intro st d h
    cases hod : st.origin_data with
    | none =>
      rw [show async_step_finish st = FinishResult.goUser from by
        simp [async_step_finish, hod]] at h
      exact FinishResult.noConfusion h
    | some od =>
      refine ⟨by simp [hod], ?_, ?_⟩
      · cases he : st.origin_entity_id with
        | some e => exact Or.inl (by simp [he])
        | none =>
          cases hoc : st.origin_coordinates with
          | some oc => exact Or.inr (by simp [hoc])
          | none =>
            rw [show async_step_finish st = FinishResult.goOrigin from by
              simp [async_step_finish, hod, he, hoc]] at h
            exact FinishResult.noConfusion h
      · cases hde : st.destination_entity_id with
        | some e => exact Or.inl (by simp [hde])
        | none =>
          cases hdc : st.destination_coordinates with
          | some dc => exact Or.inr (by simp [hdc])
          | none =>
            cases he : st.origin_entity_id with
            | some e =>
              rw [show async_step_finish st = FinishResult.goDestination from by
                simp [async_step_finish, hod, he, hde, hdc]] at h
              exact FinishResult.noConfusion h
            | none =>
              cases hoc : st.origin_coordinates with
              | some oc =>
                rw [show async_step_finish st = FinishResult.goDestination from by
                  simp [async_step_finish, hod, he, hoc, hde, hdc]] at h
                exact FinishResult.noConfusion h
              | none =>
                rw [show async_step_finish st = FinishResult.goOrigin from by
                  simp [async_step_finish, hod, he, hoc]] at h
                exact FinishResult.noConfusion h

/-- C8 witness: the assembly theorem applied to concrete wizard states — one
with nothing collected, and one that reached the final step with first-step
data and an origin but no destination. -/
theorem c8_witness :
    async_step_finish ⟨none, none, none, none, none⟩ = FinishResult.goUser ∧
      async_step_finish flowStateNoDestination = FinishResult.goDestination :=
  ⟨c8_finish_requires_prior_steps.1 ⟨none, none, none, none, none⟩ rfl,
   c8_finish_requires_prior_steps.2.2.1 flowStateNoDestination (by simp [flowStateNoDestination])
     (Or.inr (by simp [flowStateNoDestination])) rfl rfl⟩

end GaodeCommute
